import Mathlib

/-!
Shallow embedding of the Doctor-ResNet notebook (`src/main.ipynb`): a
pneumonia-vs-normal chest X-ray classifier built from Keras library calls.
Pixel values, losses and augmentation parameters are modelled as rationals;
the random sources (NumPy / Python `random`) are modelled as explicit draw
arguments; the Keras/scikit-learn library functions the notebook calls are
embedded following those libraries' documented semantics at the argument
values the notebook passes.
-/

namespace DoctorResNet

/-! ### Image data generators (cell `954fd810`)

`ImageDataGenerator` configuration: the fields the notebook sets, plus the
library defaults for the ones it leaves out (`fill_mode` defaults to
`nearest`, every augmentation range defaults to 0 / off). -/

inductive FillMode
  | nearest
  | constant
  | reflect
  | wrap
deriving DecidableEq, Repr

structure IDGConfig where
  rescale : ℚ
  rotation_range : ℚ
  width_shift_range : ℚ
  height_shift_range : ℚ
  shear_range : ℚ
  zoom_range : ℚ
  horizontal_flip : Bool
  fill_mode : FillMode
deriving DecidableEq, Repr

/-- `train_datagen = ImageDataGenerator(rescale=1./255, rotation_range=15,
width_shift_range=0.1, height_shift_range=0.1, shear_range=0.01,
zoom_range=0.1, horizontal_flip=True, fill_mode='nearest')`. -/
def train_datagen : IDGConfig :=
  { rescale := 1/255
    rotation_range := 15
    width_shift_range := 1/10
    height_shift_range := 1/10
    shear_range := 1/100
    zoom_range := 1/10
    horizontal_flip := true
    fill_mode := FillMode.nearest }

/-- `val_datagen = ImageDataGenerator(rescale=1./255)`: every augmentation
parameter keeps its library default (0 / off). -/
def val_datagen : IDGConfig :=
  { rescale := 1/255
    rotation_range := 0
    width_shift_range := 0
    height_shift_range := 0
    shear_range := 0
    zoom_range := 0
    horizontal_flip := false
    fill_mode := FillMode.nearest }

/-- The per-image random transform parameters Keras's
`get_random_transform` draws. -/
structure TransformParams where
  theta : ℚ
  tx : ℚ
  ty : ℚ
  shear : ℚ
  zx : ℚ
  zy : ℚ
  flip_horizontal : Bool
deriving DecidableEq, Repr

/-- One uniform draw from `[lo, hi]`, driven by a unit draw `d ∈ [0,1]`. -/
def uniformDraw (lo hi d : ℚ) : ℚ := lo + (hi - lo) * d

/-- The unit random draws one call of `get_random_transform` consumes. -/
structure TransformDraws where
  dTheta : ℚ
  dTx : ℚ
  dTy : ℚ
  dShear : ℚ
  dZx : ℚ
  dZy : ℚ
  dFlip : ℚ
deriving DecidableEq, Repr

/-- Keras `ImageDataGenerator.get_random_transform` at the notebook's
configurations: a zero range suppresses its draw (Python falsiness); a shift
range below 1 is a fraction of the image dimension; a scalar `zoom_range` z
means zooms drawn from `[1-z, 1+z]`; horizontal flip fires when a uniform
unit draw falls below 1/2 and the flag is set. -/
def get_random_transform (cfg : IDGConfig) (imgH imgW : ℚ) (d : TransformDraws) :
    TransformParams :=
  { theta := if cfg.rotation_range = 0 then 0 else
      uniformDraw (-cfg.rotation_range) cfg.rotation_range d.dTheta
    tx := if cfg.height_shift_range = 0 then 0 else
      (if cfg.height_shift_range < 1 then
        uniformDraw (-cfg.height_shift_range) cfg.height_shift_range d.dTx * imgH
      else uniformDraw (-cfg.height_shift_range) cfg.height_shift_range d.dTx)
    ty := if cfg.width_shift_range = 0 then 0 else
      (if cfg.width_shift_range < 1 then
        uniformDraw (-cfg.width_shift_range) cfg.width_shift_range d.dTy * imgW
      else uniformDraw (-cfg.width_shift_range) cfg.width_shift_range d.dTy)
    shear := if cfg.shear_range = 0 then 0 else
      uniformDraw (-cfg.shear_range) cfg.shear_range d.dShear
    zx := if cfg.zoom_range = 0 then 1 else
      uniformDraw (1 - cfg.zoom_range) (1 + cfg.zoom_range) d.dZx
    zy := if cfg.zoom_range = 0 then 1 else
      uniformDraw (1 - cfg.zoom_range) (1 + cfg.zoom_range) d.dZy
    flip_horizontal := cfg.horizontal_flip && decide (d.dFlip < 1/2) }

/-- The identity transform: what a rescale-only generator applies. -/
def neutralTransform : TransformParams :=
  { theta := 0, tx := 0, ty := 0, shear := 0, zx := 1, zy := 1,
    flip_horizontal := false }

/-! ### `flow_from_directory` (cell `954fd810`) -/

structure FlowConfig where
  target_size : ℕ × ℕ
  batch_size : ℕ
  shuffle : Bool
deriving DecidableEq, Repr

/-- `train_generator`: `shuffle` keeps the library default `True`. -/
def train_generator_cfg : FlowConfig :=
  { target_size := (224, 224), batch_size := 16, shuffle := true }

/-- `val_generator`: the notebook passes `shuffle=False`. -/
def val_generator_cfg : FlowConfig :=
  { target_size := (224, 224), batch_size := 16, shuffle := false }

/-- Keras `Iterator._set_index_array`: `np.random.permutation(n)` when
shuffling, else `np.arange(n)`. The permutation source is abstracted as a
seed-indexed family. -/
def epochIndexOrder (n : ℕ) (shuffle : Bool) (perm : ℕ → List ℕ) (seed : ℕ) :
    List ℕ :=
  if shuffle then perm seed else List.range n

/-- `class_mode='categorical'`: the label of a sample of class `c` is the
one-hot vector of length `numClasses` with a 1 in slot `c`. -/
def oneHot (numClasses c : ℕ) : List ℚ :=
  (List.range numClasses).map (fun i => if i = c then 1 else 0)

/-- The one-hot label rows of a batch drawn at `idxs` from a directory whose
per-file integer classes are `classes`. -/
def batchLabels (numClasses : ℕ) (classes : List ℕ) (idxs : List ℕ) :
    List (List ℚ) :=
  idxs.map (fun i => oneHot numClasses (classes.getD i 0))

/-! ### Class imbalance estimator (cell `yTlMI-ajl7gh`)

`class_weight.compute_class_weight('balanced', classes=np.unique(y), y=y)`:
scikit-learn computes `len(y) / (n_classes * np.bincount(y_ind))`, where
`n_classes` is the number of distinct labels and the weight of class `c`
divides by the number of occurrences of `c`. -/

/-- The distinct labels of `y` in ascending order (`np.unique`). -/
def uniqueSorted (y : List ℕ) : List ℕ :=
  y.dedup.insertionSort (· ≤ ·)

/-- The balanced class weight of class `c` for label sequence `y`:
`len(y) / (n_classes * count(c))`. -/
def classWeight (y : List ℕ) (c : ℕ) : ℚ :=
  (y.length : ℚ) / ((y.dedup.length : ℚ) * (y.count c : ℚ))

/-- `class_weight_dict = dict(enumerate(class_weights))`: position `k` holds
the weight of the `k`-th distinct class in ascending order. -/
def class_weight_dict (y : List ℕ) : List (ℕ × ℚ) :=
  (uniqueSorted y).enum.map (fun p => (p.1, classWeight y p.2))

/-! ### Model builder (cell `146a9ba7`) -/

/-- One backbone layer: an identifier and its `trainable` flag. -/
structure Layer where
  id : ℕ
  trainable : Bool
deriving DecidableEq, Repr

inductive Activation
  | softmax
  | relu
deriving DecidableEq, Repr

inductive HeadLayer
  | globalAveragePooling2D
  | dense (units : ℕ) (activation : Activation)
deriving DecidableEq, Repr

inductive OptimizerKind
  | adam
deriving DecidableEq, Repr

inductive LossFn
  | categoricalCrossentropy
deriving DecidableEq, Repr

structure BuiltModel where
  backbone : List Layer
  head : List HeadLayer
  optimizer : OptimizerKind
  learning_rate : ℚ
  loss : LossFn
  include_top : Bool
deriving DecidableEq, Repr

/-- `base_model.trainable = True`: every backbone layer trainable. -/
def setAllTrainable (ls : List Layer) (b : Bool) : List Layer :=
  ls.map (fun l => { l with trainable := b })

/-- `for layer in base_model.layers[:-40]: layer.trainable = False`:
Python's `[:-40]` is the first `length - 40` layers (all layers kept
trainable when there are fewer than 40, matching truncated subtraction). -/
def freezeAllButLast (k : ℕ) (ls : List Layer) : List Layer :=
  (ls.take (ls.length - k)).map (fun l => { l with trainable := false }) ++
    ls.drop (ls.length - k)

/-- The notebook's model: `ResNet50(weights='imagenet', include_top=False)`
backbone (its layer list abstracted as `baseLayers`), all layers set
trainable, the first `length - 40` re-frozen, then
`GlobalAveragePooling2D` and `Dense(2, activation='softmax')` appended, and
compilation with `Adam(learning_rate=1e-5)` and
`loss='categorical_crossentropy'`. -/
def buildModel (baseLayers : List Layer) : BuiltModel :=
  { backbone := freezeAllButLast 40 (setAllTrainable baseLayers true)
    head := [HeadLayer.globalAveragePooling2D,
             HeadLayer.dense 2 Activation.softmax]
    optimizer := OptimizerKind.adam
    learning_rate := 1/100000
    loss := LossFn.categoricalCrossentropy
    include_top := false }

/-! ### Training loop with early stopping (cell `7c9332cd`)

`early_stop = EarlyStopping(monitor='val_loss', patience=3,
restore_best_weights=True)` and `model.fit(..., epochs=3, ...)`.

The Keras `EarlyStopping` callback in `min` mode with `min_delta=0` and no
baseline: `best` starts at infinity (modelled as `none`), each epoch end
increments `wait`, resets it to 0 on strict improvement (snapshotting the
weights), and stops training — restoring the snapshot — when `wait` reaches
`patience` on an epoch of index `> 0`. Weights, the per-epoch training step
and the validation-loss evaluation are abstract parameters. -/

structure EarlyStoppingConfig where
  patience : ℕ
  restore_best_weights : Bool
deriving DecidableEq, Repr

def early_stop : EarlyStoppingConfig :=
  { patience := 3, restore_best_weights := true }

/-- `model.fit(..., epochs=3, ...)`. -/
def fitEpochs : ℕ := 3

variable {W : Type}

structure FitState (W : Type) where
  weights : W
  best : Option ℚ
  bestWeights : Option W
  wait : ℕ
  stoppedEpoch : Option ℕ

/-- `EarlyStopping._is_improvement` in `min` mode with `min_delta = 0`:
strictly below the best seen, where the initial best (`none`) is infinity. -/
def isImprovement (current : ℚ) (best : Option ℚ) : Bool :=
  match best with
  | none => true
  | some b => decide (current < b)

/-- `EarlyStopping.on_epoch_end`: `w` the model weights after this epoch's
gradient updates, `current` this epoch's validation loss. -/
def onEpochEnd (patience epoch : ℕ) (current : ℚ) (w : W) (s : FitState W) :
    FitState W :=
  let bw := match s.bestWeights with
    | none => some w
    | some x => some x
  let s1 : FitState W :=
    if isImprovement current s.best then
      { weights := w, best := some current, bestWeights := some w, wait := 0,
        stoppedEpoch := s.stoppedEpoch }
    else
      { weights := w, best := s.best, bestWeights := bw, wait := s.wait + 1,
        stoppedEpoch := s.stoppedEpoch }
  if patience ≤ s1.wait ∧ 0 < epoch then
    { s1 with weights := s1.bestWeights.getD w, stoppedEpoch := some epoch }
  else s1

/-- One iteration of the epoch loop of `model.fit`: a no-op once the
callback has set `stop_training`, otherwise one pass of gradient updates
(`step`), one validation pass (`evalLoss`) and the callback's epoch-end
hook; the executed epoch's end state is appended to the history. -/
def fitEpoch (step : ℕ → W → W) (evalLoss : ℕ → W → ℚ) (patience : ℕ)
    (acc : FitState W × List (FitState W)) (epoch : ℕ) :
    FitState W × List (FitState W) :=
  if acc.1.stoppedEpoch.isSome then acc
  else
    let w := step epoch acc.1.weights
    let c := evalLoss epoch w
    let s' := onEpochEnd patience epoch c w acc.1
    (s', acc.2 ++ [s'])

/-- `model.fit`'s `for epoch in range(epochs)` loop with the early-stopping
callback: returns the final state and the per-epoch history. -/
def fit (step : ℕ → W → W) (evalLoss : ℕ → W → ℚ) (patience epochs : ℕ)
    (w0 : W) : FitState W × List (FitState W) :=
  (List.range epochs).foldl (fitEpoch step evalLoss patience)
    ({ weights := w0, best := none, bestWeights := none, wait := 0,
       stoppedEpoch := none }, [])

/-- `model.fit(train_generator, validation_data=val_generator, epochs=3,
class_weight=class_weight_dict, callbacks=[early_stop])`. -/
def model_fit (step : ℕ → W → W) (evalLoss : ℕ → W → ℚ) (w0 : W) :
    FitState W × List (FitState W) :=
  fit step evalLoss early_stop.patience fitEpochs w0

/-! ### Evaluator (cell `24b86ee9`)

`cm = confusion_matrix(y_true, y_pred, normalize='true')` with no `labels`
argument: scikit-learn takes the label set as the sorted distinct values
occurring in `y_true` or `y_pred`, counts pairs, divides each row by its
sum under `np.errstate(all='ignore')`, and finally applies
`np.nan_to_num`, turning the `0/0` entries of an all-zero row into `0`. -/

/-- The sorted distinct labels of `y_true ++ y_pred`
(scikit-learn `unique_labels`). -/
def cmLabels (y_true y_pred : List ℕ) : List ℕ :=
  uniqueSorted (y_true ++ y_pred)

/-- The raw count matrix: entry `(i, j)` counts samples of true label
`labels[i]` predicted as `labels[j]`. -/
def cmCounts (y_true y_pred : List ℕ) : List (List ℕ) :=
  (cmLabels y_true y_pred).map (fun t =>
    (cmLabels y_true y_pred).map (fun p =>
      (y_true.zip y_pred).countP (fun s => s.1 == t && s.2 == p)))

/-- Row normalization with `np.nan_to_num`: an all-zero row stays zero
instead of propagating NaN. -/
def normalizeRow (row : List ℕ) : List ℚ :=
  row.map (fun e : ℕ => if row.sum = 0 then 0 else (e : ℚ) / (row.sum : ℚ))

/-- `confusion_matrix(y_true, y_pred, normalize='true')`. -/
def confusion_matrix_true (y_true y_pred : List ℕ) : List (List ℚ) :=
  (cmCounts y_true y_pred).map normalizeRow

/-! ### Sample predictor (cell `35ca0bc8`)

`show_sample_predictions(val_generator, model, class_names, num_images=10)`:
each of the `num_images` iterations draws
`random.randint(0, len(generator.filenames) - 1)`, loads that file, rescales
it by 1/255, runs one forward pass and records predicted vs. true class.
The Python RNG is modelled as a list of draw values, the image decoding and
the network forward pass as abstract functions. -/

/-- The state the notebook's pipeline carries into the sample predictor. -/
structure GeneratorState where
  directory : String
  filenames : List String
  classes : List ℕ
  batch_index : ℕ
deriving DecidableEq, Repr

structure PipelineState (W : Type) where
  modelWeights : W
  train_generator : GeneratorState
  val_generator : GeneratorState

/-- Python `random.randint(lo, hi)`: inclusive on both ends. -/
def randint (lo hi : ℕ) (draw : ℕ) : ℕ := lo + draw % (hi + 1 - lo)

/-- Index of the largest entry (`np.argmax`, first maximum wins). -/
def argmaxIdx (l : List ℚ) : ℕ :=
  (l.foldl
    (fun acc x =>
      if acc.2.2 < x then (acc.1 + 1, acc.1 + 1, x) else (acc.1 + 1, acc.2))
    ((0 : ℕ), (0 : ℕ), l.headD 0)).2.1

/-- `show_sample_predictions`: returns the pipeline state it was handed
together with one `(drawn index, predicted class, true class)` record per
draw. `load_img` stands for file decoding plus resize to 224×224, `forward`
for `model.predict` on a single rescaled image. -/
def show_sample_predictions {Img : Type} (st : PipelineState W)
    (load_img : String → Img) (rescaleImg : Img → Img)
    (forward : W → Img → List ℚ) (draws : List ℕ) :
    PipelineState W × List (ℕ × ℕ × ℕ) :=
  (st,
    draws.map (fun d =>
      let index := randint 0 (st.val_generator.filenames.length - 1) d
      let img := rescaleImg (load_img (st.val_generator.filenames.getD index ""))
      (index, argmaxIdx (forward st.modelWeights img),
        st.val_generator.classes.getD index 0)))

/-! ## Helper lemmas -/

theorem uniformDraw_bounds {lo hi d : ℚ} (hle : lo ≤ hi) (h0 : 0 ≤ d)
    (h1 : d ≤ 1) : lo ≤ uniformDraw lo hi d ∧ uniformDraw lo hi d ≤ hi := by
  unfold uniformDraw
  constructor <;> nlinarith

/-! ## Claims -/

/-- The draw ranges, flip rule, fill mode and rescale factor claim C5 states
for the training transform. -/
def C5Conclusion (imgH imgW : ℚ) (d : TransformDraws) : Prop :=
  (-15 ≤ (get_random_transform train_datagen imgH imgW d).theta ∧
    (get_random_transform train_datagen imgH imgW d).theta ≤ 15) ∧
  (-(imgH / 10) ≤ (get_random_transform train_datagen imgH imgW d).tx ∧
    (get_random_transform train_datagen imgH imgW d).tx ≤ imgH / 10) ∧
  (-(imgW / 10) ≤ (get_random_transform train_datagen imgH imgW d).ty ∧
    (get_random_transform train_datagen imgH imgW d).ty ≤ imgW / 10) ∧
  (-(1 / 100) ≤ (get_random_transform train_datagen imgH imgW d).shear ∧
    (get_random_transform train_datagen imgH imgW d).shear ≤ 1 / 100) ∧
  (9 / 10 ≤ (get_random_transform train_datagen imgH imgW d).zx ∧
    (get_random_transform train_datagen imgH imgW d).zx ≤ 11 / 10) ∧
  (9 / 10 ≤ (get_random_transform train_datagen imgH imgW d).zy ∧
    (get_random_transform train_datagen imgH imgW d).zy ≤ 11 / 10) ∧
  ((get_random_transform train_datagen imgH imgW d).flip_horizontal = true ↔
    d.dFlip < 1 / 2) ∧
  train_datagen.fill_mode = FillMode.nearest ∧
  train_datagen.rescale = 1 / 255

/-- All seven unit draws lie in `[0, 1]`. -/
def unitDraws (d : TransformDraws) : Prop :=
  (0 ≤ d.dTheta ∧ d.dTheta ≤ 1) ∧ (0 ≤ d.dTx ∧ d.dTx ≤ 1) ∧
  (0 ≤ d.dTy ∧ d.dTy ≤ 1) ∧ (0 ≤ d.dShear ∧ d.dShear ≤ 1) ∧
  (0 ≤ d.dZx ∧ d.dZx ≤ 1) ∧ (0 ≤ d.dZy ∧ d.dZy ≤ 1) ∧
  (0 ≤ d.dFlip ∧ d.dFlip ≤ 1)

/-- C5: the training transform draws rotation within ±15°, shifts within
±10% of the image dimension, shear within ±1/100, zooms within ±10% of 1,
flips horizontally exactly when the unit draw falls below 1/2, fills new
pixels with `nearest` (edge replication) and rescales by 1/255. -/
theorem claim_C5_train_transform (imgH imgW : ℚ) (d : TransformDraws)
    (hd : unitDraws d) (hH : 0 ≤ imgH) (hW : 0 ≤ imgW) :
    C5Conclusion imgH imgW d := by
  obtain ⟨⟨h1a, h1b⟩, ⟨h2a, h2b⟩, ⟨h3a, h3b⟩, ⟨h4a, h4b⟩, ⟨h5a, h5b⟩,
    ⟨h6a, h6b⟩, h7a, h7b⟩ := hd
  have hth := @uniformDraw_bounds (-15) 15 d.dTheta (by norm_num) h1a h1b
  have htx := @uniformDraw_bounds (-(1/10)) (1/10) d.dTx (by norm_num) h2a h2b
  have hty := @uniformDraw_bounds (-(1/10)) (1/10) d.dTy (by norm_num) h3a h3b
  have hsh := @uniformDraw_bounds (-(1/100)) (1/100) d.dShear (by norm_num) h4a h4b
  have hzx := @uniformDraw_bounds (9/10) (11/10) d.dZx (by norm_num) h5a h5b
  have hzy := @uniformDraw_bounds (9/10) (11/10) d.dZy (by norm_num) h6a h6b
  unfold C5Conclusion
  simp only [get_random_transform, train_datagen]
  norm_num
  exact ⟨⟨hth.1, hth.2⟩,
    ⟨by nlinarith [htx.1, htx.2], by nlinarith [htx.1, htx.2]⟩,
    ⟨by nlinarith [hty.1, hty.2], by nlinarith [hty.1, hty.2]⟩,
    ⟨hsh.1, hsh.2⟩, ⟨hzx.1, hzx.2⟩, hzy.1, hzy.2⟩

/-- C5 witness at the draws all equal to 1/2 and a 224×224 image. -/
theorem claim_C5_train_transform_witness :
    C5Conclusion 224 224 ⟨1/2, 1/2, 1/2, 1/2, 1/2, 1/2, 1/2⟩ :=
  claim_C5_train_transform 224 224 _ (by norm_num [unitDraws]) (by norm_num)
    (by norm_num)

/-- Everything claim C6 states about the built model. -/
def C6Conclusion (ls : List Layer) : Prop :=
  (buildModel ls).backbone.map Layer.trainable =
    List.replicate (ls.length - 40) false ++ List.replicate 40 true ∧
  (buildModel ls).head =
    [HeadLayer.globalAveragePooling2D, HeadLayer.dense 2 Activation.softmax] ∧
  (buildModel ls).learning_rate = 1 / 100000 ∧
  (buildModel ls).loss = LossFn.categoricalCrossentropy ∧
  (buildModel ls).include_top = false ∧
  (buildModel ls).optimizer = OptimizerKind.adam

/-- C6: for a backbone of at least 40 layers, the builder leaves exactly the
last 40 backbone layers trainable and freezes the rest, appends global
average pooling and a 2-unit softmax dense head, and compiles with Adam at
learning rate 1e-5 and categorical cross-entropy loss, with the original
top discarded. -/
theorem claim_C6_model_builder (ls : List Layer) (h : 40 ≤ ls.length) :
    C6Conclusion ls := by
  refine ⟨?_, rfl, rfl, rfl, rfl, rfl⟩
  unfold buildModel freezeAllButLast setAllTrainable
  simp only [List.map_append, List.map_map, List.length_map, ← List.map_take,
    ← List.map_drop, Function.comp_def]
  rw [List.map_const', List.map_const', List.length_take, List.length_drop,
    Nat.min_eq_left (Nat.sub_le _ _), Nat.sub_sub_self h]

/-- C6 witness on a 175-layer backbone (the layer count of the
`include_top=False` ResNet50). -/
theorem claim_C6_model_builder_witness :
    C6Conclusion ((List.range 175).map (fun i => { id := i, trainable := true })) :=
  claim_C6_model_builder _ (by simp)

/-- C7: the validation generator is deterministic — with `shuffle=False` the
order of a full pass is `0, 1, …, n-1` whatever the random permutation
source and seed, so any two runs agree — and its transform is the identity
(no augmentation) followed by the 1/255 rescale, whatever the random
draws. -/
theorem claim_C7_val_generator_deterministic (n : ℕ) (perm : ℕ → List ℕ)
    (seed1 seed2 : ℕ) (imgH imgW : ℚ) (d : TransformDraws) :
    epochIndexOrder n val_generator_cfg.shuffle perm seed1 =
      epochIndexOrder n val_generator_cfg.shuffle perm seed2 ∧
    epochIndexOrder n val_generator_cfg.shuffle perm seed1 = List.range n ∧
    get_random_transform val_datagen imgH imgW d = neutralTransform ∧
    val_datagen.rescale = 1 / 255 := by
  refine ⟨rfl, rfl, ?_, rfl⟩
  simp [get_random_transform, val_datagen, neutralTransform]

theorem sum_map_ite_range (n c : ℕ) :
    ((List.range n).map (fun i => if i = c then (1 : ℚ) else 0)).sum =
      if c < n then 1 else 0 := by
  induction n with
  | zero => simp
  | succ n ih =>
    rw [List.range_succ, List.map_append, List.sum_append, ih]
    by_cases h : c < n
    · have hne : n ≠ c := by omega
      simp [h, hne, show c < n + 1 by omega]
    · by_cases h2 : n = c
      · simp [h, h2, show c < c + 1 by omega]
      · simp [h, h2, show ¬c < n + 1 by omega]

theorem count_map_ite_range (n c : ℕ) :
    ((List.range n).map (fun i => if i = c then (1 : ℚ) else 0)).count 1 =
      if c < n then 1 else 0 := by
  induction n with
  | zero => simp
  | succ n ih =>
    rw [List.range_succ, List.map_append, List.count_append, ih]
    by_cases h : c < n
    · have hne : n ≠ c := by omega
      simp [h, hne, show c < n + 1 by omega, List.count_singleton]
    · by_cases h2 : n = c
      · simp [h, h2, show c < c + 1 by omega, List.count_singleton]
      · simp [h, h2, show ¬c < n + 1 by omega, List.count_singleton]

theorem oneHot_sum {n c : ℕ} (h : c < n) : (oneHot n c).sum = 1 := by
  rw [oneHot, sum_map_ite_range, if_pos h]

theorem oneHot_count_one {n c : ℕ} (h : c < n) : (oneHot n c).count 1 = 1 := by
  rw [oneHot, count_map_ite_range, if_pos h]

theorem oneHot_mem_zero_or_one {n c : ℕ} {x : ℚ} (hx : x ∈ oneHot n c) :
    x = 0 ∨ x = 1 := by
  rw [oneHot] at hx
  obtain ⟨i, _, rfl⟩ := List.mem_map.1 hx
  by_cases h : i = c <;> simp [h]

/-- What claim C8 states of every label row of a batch. -/
def C8Conclusion (numClasses : ℕ) (classes idxs : List ℕ) : Prop :=
  ∀ lab ∈ batchLabels numClasses classes idxs,
    lab.sum = 1 ∧ lab.count 1 = 1 ∧ ∀ x ∈ lab, x = 0 ∨ x = 1

/-- C8: with `class_mode='categorical'`, every label row of every training
batch is one-hot — its components sum to exactly 1, exactly one component
equals 1 and every other is 0 — provided every class index is within the
class count and every drawn index is within the file list. -/
theorem claim_C8_labels_one_hot (numClasses : ℕ) (classes idxs : List ℕ)
    (hc : ∀ c ∈ classes, c < numClasses)
    (hi : ∀ i ∈ idxs, i < classes.length) :
    C8Conclusion numClasses classes idxs := by
  intro lab hlab
  obtain ⟨i, hmem, rfl⟩ := List.mem_map.1 hlab
  have hcls : classes.getD i 0 ∈ classes := by
    rw [List.getD_eq_getElem classes 0 (hi i hmem)]
    exact List.getElem_mem _
  have hlt : classes.getD i 0 < numClasses := hc _ hcls
  exact ⟨oneHot_sum hlt, oneHot_count_one hlt,
    fun x hx => oneHot_mem_zero_or_one hx⟩

/-- C8 witness: two classes, three files of classes 0, 1, 0, a batch drawn
at indices 2 and 0. -/
theorem claim_C8_labels_one_hot_witness : C8Conclusion 2 [0, 1, 0] [2, 0] :=
  claim_C8_labels_one_hot 2 [0, 1, 0] [2, 0] (by decide) (by decide)

/-- What claim C10 states of the sample predictor: the pipeline state comes
back unchanged, and the drawn indices are exactly the draws reduced modulo
the validation file count (each one in range, chosen with replacement). -/
def C10Conclusion {W Img : Type} (st : PipelineState W)
    (load_img : String → Img) (rescaleImg : Img → Img)
    (forward : W → Img → List ℚ) (draws : List ℕ) : Prop :=
  (show_sample_predictions st load_img rescaleImg forward draws).1 = st ∧
  (show_sample_predictions st load_img rescaleImg forward draws).2.map
      Prod.fst =
    draws.map (fun dr => dr % st.val_generator.filenames.length) ∧
  ∀ p ∈ (show_sample_predictions st load_img rescaleImg forward draws).2,
    p.1 < st.val_generator.filenames.length

/-- C10: `show_sample_predictions` is purely observational — it returns the
model weights and both generator states exactly as it received them — and
each of its draws independently selects an index into the validation file
list (uniform `randint`, with replacement), always in range when the list
is non-empty. -/
theorem claim_C10_sample_predictor {W Img : Type} (st : PipelineState W)
    (load_img : String → Img) (rescaleImg : Img → Img)
    (forward : W → Img → List ℚ) (draws : List ℕ)
    (h : st.val_generator.filenames ≠ []) :
    C10Conclusion st load_img rescaleImg forward draws := by
  have hn : 0 < st.val_generator.filenames.length := List.length_pos.2 h
  have hidx : ∀ dr : ℕ,
      randint 0 (st.val_generator.filenames.length - 1) dr =
        dr % st.val_generator.filenames.length := by
    intro dr
    unfold randint
    have h1 : st.val_generator.filenames.length - 1 + 1 - 0 =
        st.val_generator.filenames.length := by omega
    rw [h1, Nat.zero_add]

  refine ⟨rfl, ?_, ?_⟩
  · simp only [show_sample_predictions, List.map_map]
    exact List.map_congr_left fun dr _ => by simp [hidx dr]
  · intro p hp
    obtain ⟨dr, _, rfl⟩ := List.mem_map.1 hp
    simpa [hidx dr] using Nat.mod_lt dr hn

/-- C10 witness: a two-file validation set, weights and images modelled by
naturals, three draws. -/
theorem claim_C10_sample_predictor_witness :
    C10Conclusion
      { modelWeights := (7 : ℕ)
        train_generator :=
          { directory := "data/train", filenames := ["n1.jpg", "p1.jpg"],
            classes := [0, 1], batch_index := 0 }
        val_generator :=
          { directory := "data/val", filenames := ["v1.jpg", "v2.jpg"],
            classes := [0, 1], batch_index := 0 } }
      (fun _ : String => (0 : ℕ)) (fun i : ℕ => i)
      (fun (w i : ℕ) => [(w : ℚ), (i : ℚ)]) [0, 1, 5] :=
  claim_C10_sample_predictor _ _ _ _ _ (by decide)

/-- What claim C2 states of the class-weight estimator: the inverse-frequency
formula, strict positivity, strictly larger weight for the rarer class, and
the 100-normal/20-pneumonia scenario giving a 5× ratio. -/
def C2Conclusion (y : List ℕ) : Prop :=
  (∀ c ∈ y, classWeight y c =
      (y.length : ℚ) / ((y.dedup.length : ℚ) * (y.count c : ℚ)) ∧
    0 < classWeight y c) ∧
  (∀ c1 ∈ y, ∀ c2 ∈ y, y.count c1 < y.count c2 →
    classWeight y c2 < classWeight y c1) ∧
  (y = List.replicate 100 0 ++ List.replicate 20 1 →
    classWeight y 1 = 5 * classWeight y 0)

set_option maxRecDepth 10000

/-- C2: on every non-empty label sequence the estimator assigns each present
class the weight `total / (num_classes * count)`; every such weight is
strictly positive; of two present classes the rarer one gets the strictly
larger weight; and with 100 samples of class 0 ("normal") and 20 of class 1
("pneumonia") the weight of class 1 is exactly 5 times that of class 0. -/
theorem claim_C2_class_weights (y : List ℕ) (hy : y ≠ []) : C2Conclusion y := by
  have hlen : (0 : ℚ) < (y.length : ℚ) := by
    exact_mod_cast List.length_pos.2 hy
  have hded : ∀ c ∈ y, (0 : ℚ) < (y.dedup.length : ℚ) := by
    intro c hc
    have : c ∈ y.dedup := List.mem_dedup.2 hc
    exact_mod_cast List.length_pos.2 (List.ne_nil_of_mem this)
  have hcnt : ∀ c ∈ y, (0 : ℚ) < (y.count c : ℚ) := by
    intro c hc
    exact_mod_cast List.count_pos_iff.2 hc
  refine ⟨fun c hc => ⟨rfl, ?_⟩, fun c1 hc1 c2 hc2 hlt => ?_, fun hrep => ?_⟩
  · exact div_pos hlen (mul_pos (hded c hc) (hcnt c hc))
  · have hq : (y.count c1 : ℚ) < (y.count c2 : ℚ) := by exact_mod_cast hlt
    exact div_lt_div_of_pos_left hlen
      (mul_pos (hded c1 hc1) (hcnt c1 hc1))
      (mul_lt_mul_of_pos_left hq (hded c1 hc1))
  · subst hrep
    have hL : (List.replicate 100 0 ++ List.replicate 20 (1 : ℕ)).length = 120 := by
      simp only [List.length_append, List.length_replicate]
    have hD : (List.replicate 100 0 ++ List.replicate 20 (1 : ℕ)).dedup.length = 2 := by
      decide
    have hC1 : (List.replicate 100 0 ++ List.replicate 20 (1 : ℕ)).count 1 = 20 := by
      simp only [List.count_append, List.count_replicate]
      norm_num
    have hC0 : (List.replicate 100 0 ++ List.replicate 20 (1 : ℕ)).count 0 = 100 := by
      simp only [List.count_append, List.count_replicate]
      norm_num
    rw [classWeight, classWeight, hL, hD, hC1, hC0]
    norm_num

/-- C2 witness at the 100-normal/20-pneumonia training set. -/
theorem claim_C2_class_weights_witness :
    C2Conclusion (List.replicate 100 0 ++ List.replicate 20 1) :=
  claim_C2_class_weights _ (by simp)

theorem sum_map_div_natCast (l : List ℕ) (s : ℚ) :
    (l.map (fun e : ℕ => (e : ℚ) / s)).sum = (l.sum : ℚ) / s := by
  induction l with
  | nil => simp
  | cons a l ih =>
    rw [List.map_cons, List.sum_cons, ih, List.sum_cons]
    push_cast
    ring

/-- What the amended claim C3 states of one raw confusion-matrix row. -/
def C3Conclusion (row : List ℕ) : Prop :=
  (row.sum ≠ 0 → (normalizeRow row).sum = 1) ∧
  (row.sum = 0 → (normalizeRow row).sum = 0)

/-- C3 counterexample: with true labels `[0, 0]` and predictions `[0, 1]`
(two truly-normal samples, the second misclassified), the label set inferred
from the data is `{0, 1}` and the row of class 1 — which has no true
samples — sums to 0, not 1. -/
theorem claim_C3_counterexample :
    ¬ ∀ row ∈ confusion_matrix_true [0, 0] [0, 1], row.sum = 1 := by
  intro hall
  have hm : cmCounts [0, 0] [0, 1] = [[1, 1], [0, 0]] := by decide
  have hz : normalizeRow [0, 0] = [0, 0] := by
    simp [normalizeRow]
  have h0 : ([0, 0] : List ℚ) ∈ confusion_matrix_true [0, 0] [0, 1] := by
    rw [confusion_matrix_true, hm]
    simp [hz]
  have hsum := hall _ h0
  simp at hsum

/-- C3 (amended): every row of the normalized confusion matrix whose raw
counts are not all zero — i.e. whose true class actually occurs among the
true labels — sums to exactly 1; a row with no true samples is normalized
to all zeros (`np.nan_to_num` of the 0/0 division) and sums to 0. -/
theorem claim_C3_row_sums (y_true y_pred : List ℕ) (row : List ℕ)
    (_hrow : row ∈ cmCounts y_true y_pred) : C3Conclusion row := by
  constructor
  · intro hs
    have hcast : ((row.sum : ℕ) : ℚ) ≠ 0 := Nat.cast_ne_zero.2 hs
    rw [normalizeRow]
    simp only [if_neg hs]
    rw [sum_map_div_natCast]
    exact div_self hcast
  · intro hs
    simp [normalizeRow, hs]

/-- C3 witness: the first raw row of the matrix for `y_true = y_pred =
[0, 1]`. -/
theorem claim_C3_row_sums_witness : C3Conclusion [1, 0] :=
  claim_C3_row_sums [0, 1] [0, 1] [1, 0] (by decide)

/-- C4 counterexample: for 10 samples all truly class 0 ("normal") and all
predicted class 0, the evaluator's matrix has exactly one row — not the two
rows (with a NaN/undefined second row) the claim states. -/
theorem claim_C4_counterexample :
    (confusion_matrix_true (List.replicate 10 0) (List.replicate 10 0)).length
      = 1 ∧
    (confusion_matrix_true (List.replicate 10 0) (List.replicate 10 0)).length
      ≠ 2 := by
  have hm : cmCounts (List.replicate 10 0) (List.replicate 10 0) = [[10]] := by
    decide
  rw [confusion_matrix_true, hm]
  simp

/-- C4 (amended): in that scenario scikit-learn infers the label set from
the values occurring in `y_true` and `y_pred`, so the label set is `[0]`
and the normalized confusion matrix is the 1×1 matrix `[[1.0]]`; no
NaN/undefined row for the absent class exists. -/
theorem claim_C4_all_normal_matrix :
    cmLabels (List.replicate 10 0) (List.replicate 10 0) = [0] ∧
    confusion_matrix_true (List.replicate 10 0) (List.replicate 10 0)
      = [[1]] := by
  have hl : cmLabels (List.replicate 10 0) (List.replicate 10 0) = [0] := by
    decide
  have hm : cmCounts (List.replicate 10 0) (List.replicate 10 0) = [[10]] := by
    decide
  refine ⟨hl, ?_⟩
  rw [confusion_matrix_true, hm]
  norm_num [normalizeRow]

/-- After any epoch-end hook the best-weights snapshot exists, and the hook
either leaves the stop flag as it was or stops, in which case the model
weights have been set to the snapshot. -/
theorem onEpochEnd_cases (p e : ℕ) (c : ℚ) (w : W) (s : FitState W) :
    ∃ b : W, (onEpochEnd p e c w s).bestWeights = some b ∧
      ((onEpochEnd p e c w s).stoppedEpoch = s.stoppedEpoch ∨
        ((onEpochEnd p e c w s).stoppedEpoch = some e ∧
          (onEpochEnd p e c w s).weights = b)) := by
  obtain ⟨sw, sb, sbw, swait, sse⟩ := s
  unfold onEpochEnd
  cases sbw <;> dsimp only <;> split_ifs <;>
    first
      | exact ⟨w, rfl, Or.inr ⟨rfl, rfl⟩⟩
      | exact ⟨w, rfl, Or.inl rfl⟩
      | exact ⟨_, rfl, Or.inr ⟨rfl, rfl⟩⟩
      | exact ⟨_, rfl, Or.inl rfl⟩

/-- The restore invariant is preserved along the epoch loop: whenever the
final state is stopped, its weights are the best snapshot. -/
theorem foldl_fitEpoch_restore (step : ℕ → W → W) (evalLoss : ℕ → W → ℚ)
    (p : ℕ) (l : List ℕ) :
    ∀ acc : FitState W × List (FitState W),
      (acc.1.stoppedEpoch.isSome = true →
        acc.1.bestWeights = some acc.1.weights) →
      ((l.foldl (fitEpoch step evalLoss p) acc).1.stoppedEpoch.isSome = true →
        (l.foldl (fitEpoch step evalLoss p) acc).1.bestWeights =
          some (l.foldl (fitEpoch step evalLoss p) acc).1.weights) := by
  induction l with
  | nil => intro acc hacc; simpa using hacc
  | cons e l ih =>
    intro acc hacc
    rw [List.foldl_cons]
    apply ih
    unfold fitEpoch
    by_cases hstop : acc.1.stoppedEpoch.isSome = true
    · simpa [hstop] using hacc
    · have hnone : acc.1.stoppedEpoch = none := by
        cases h : acc.1.stoppedEpoch
        · rfl
        · rw [h] at hstop; simp at hstop
      simp only [hnone, Option.isSome_none, Bool.false_eq_true, if_false]
      intro hs
      obtain ⟨b, hb, hor⟩ := onEpochEnd_cases p e
        (evalLoss e (step e acc.1.weights)) (step e acc.1.weights) acc.1
      rcases hor with hsame | ⟨_, hw⟩
      · rw [hnone] at hsame
        simp only [hsame] at hs
        simp at hs
      · simp only [hb, hw]

/-- On any stop the `fit` loop's final weights are the best snapshot. -/
theorem fit_restore (step : ℕ → W → W) (evalLoss : ℕ → W → ℚ)
    (p epochs : ℕ) (w1 : W) :
    (fit step evalLoss p epochs w1).1.stoppedEpoch.isSome = true →
    (fit step evalLoss p epochs w1).1.bestWeights =
      some (fit step evalLoss p epochs w1).1.weights := by
  unfold fit
  apply foldl_fitEpoch_restore
  intro h
  simp at h

/-- The complete run of the notebook's `model.fit` (`epochs=3`,
`patience=3`): epoch 0 always improves on the infinite initial best, and no
epoch triggers the early stop. -/
theorem model_fit_run (step : ℕ → W → W) (evalLoss : ℕ → W → ℚ) (w0 : W) :
    ∃ s2 s3 : FitState W,
      model_fit step evalLoss w0 =
        (s3, [{ weights := step 0 w0, best := some (evalLoss 0 (step 0 w0)),
                bestWeights := some (step 0 w0), wait := 0,
                stoppedEpoch := none },
              s2, s3]) ∧
      s2.wait ≤ 1 ∧ s3.wait ≤ 2 ∧
      s2.stoppedEpoch = none ∧ s3.stoppedEpoch = none ∧
      s3.weights = step 2 (step 1 (step 0 w0)) := by
  unfold model_fit fit fitEpochs early_stop
  rw [show List.range 3 = [0, 1, 2] from rfl]
  simp only [List.foldl_cons, List.foldl_nil]
  have e0 : fitEpoch step evalLoss 3
      ({ weights := w0, best := none, bestWeights := none, wait := 0,
         stoppedEpoch := none }, []) 0 =
      ({ weights := step 0 w0, best := some (evalLoss 0 (step 0 w0)),
         bestWeights := some (step 0 w0), wait := 0, stoppedEpoch := none },
       [{ weights := step 0 w0, best := some (evalLoss 0 (step 0 w0)),
          bestWeights := some (step 0 w0), wait := 0,
          stoppedEpoch := none }]) := by
    simp [fitEpoch, onEpochEnd, isImprovement]
  rw [e0]
  by_cases h1 : evalLoss 1 (step 1 (step 0 w0)) < evalLoss 0 (step 0 w0)
  · have e1 : fitEpoch step evalLoss 3
        ({ weights := step 0 w0, best := some (evalLoss 0 (step 0 w0)),
           bestWeights := some (step 0 w0), wait := 0, stoppedEpoch := none },
         [{ weights := step 0 w0, best := some (evalLoss 0 (step 0 w0)),
            bestWeights := some (step 0 w0), wait := 0,
            stoppedEpoch := none }]) 1 =
        ({ weights := step 1 (step 0 w0),
           best := some (evalLoss 1 (step 1 (step 0 w0))),
           bestWeights := some (step 1 (step 0 w0)), wait := 0,
           stoppedEpoch := none },
         [{ weights := step 0 w0, best := some (evalLoss 0 (step 0 w0)),
            bestWeights := some (step 0 w0), wait := 0, stoppedEpoch := none },
          { weights := step 1 (step 0 w0),
            best := some (evalLoss 1 (step 1 (step 0 w0))),
            bestWeights := some (step 1 (step 0 w0)), wait := 0,
            stoppedEpoch := none }]) := by
      simp [fitEpoch, onEpochEnd, isImprovement, h1]
    rw [e1]
    by_cases h2 : evalLoss 2 (step 2 (step 1 (step 0 w0))) <
        evalLoss 1 (step 1 (step 0 w0))
    · have e2 : fitEpoch step evalLoss 3
          ({ weights := step 1 (step 0 w0),
             best := some (evalLoss 1 (step 1 (step 0 w0))),
             bestWeights := some (step 1 (step 0 w0)), wait := 0,
             stoppedEpoch := none },
           [{ weights := step 0 w0, best := some (evalLoss 0 (step 0 w0)),
              bestWeights := some (step 0 w0), wait := 0, stoppedEpoch := none },
            { weights := step 1 (step 0 w0),
              best := some (evalLoss 1 (step 1 (step 0 w0))),
              bestWeights := some (step 1 (step 0 w0)), wait := 0,
              stoppedEpoch := none }]) 2 =
          ({ weights := step 2 (step 1 (step 0 w0)),
             best := some (evalLoss 2 (step 2 (step 1 (step 0 w0)))),
             bestWeights := some (step 2 (step 1 (step 0 w0))), wait := 0,
             stoppedEpoch := none },
           [{ weights := step 0 w0, best := some (evalLoss 0 (step 0 w0)),
              bestWeights := some (step 0 w0), wait := 0, stoppedEpoch := none },
            { weights := step 1 (step 0 w0),
              best := some (evalLoss 1 (step 1 (step 0 w0))),
              bestWeights := some (step 1 (step 0 w0)), wait := 0,
              stoppedEpoch := none },
            { weights := step 2 (step 1 (step 0 w0)),
              best := some (evalLoss 2 (step 2 (step 1 (step 0 w0)))),
              bestWeights := some (step 2 (step 1 (step 0 w0))), wait := 0,
              stoppedEpoch := none }]) := by
        simp [fitEpoch, onEpochEnd, isImprovement, h2]
      rw [e2]
      exact ⟨_, _, rfl, (by decide : (0:ℕ) ≤ 1), (by decide : (0:ℕ) ≤ 2), rfl, rfl, rfl⟩
    · have e2 : fitEpoch step evalLoss 3
          ({ weights := step 1 (step 0 w0),
             best := some (evalLoss 1 (step 1 (step 0 w0))),
             bestWeights := some (step 1 (step 0 w0)), wait := 0,
             stoppedEpoch := none },
           [{ weights := step 0 w0, best := some (evalLoss 0 (step 0 w0)),
              bestWeights := some (step 0 w0), wait := 0, stoppedEpoch := none },
            { weights := step 1 (step 0 w0),
              best := some (evalLoss 1 (step 1 (step 0 w0))),
              bestWeights := some (step 1 (step 0 w0)), wait := 0,
              stoppedEpoch := none }]) 2 =
          ({ weights := step 2 (step 1 (step 0 w0)),
             best := some (evalLoss 1 (step 1 (step 0 w0))),
             bestWeights := some (step 1 (step 0 w0)), wait := 1,
             stoppedEpoch := none },
           [{ weights := step 0 w0, best := some (evalLoss 0 (step 0 w0)),
              bestWeights := some (step 0 w0), wait := 0, stoppedEpoch := none },
            { weights := step 1 (step 0 w0),
              best := some (evalLoss 1 (step 1 (step 0 w0))),
              bestWeights := some (step 1 (step 0 w0)), wait := 0,
              stoppedEpoch := none },
            { weights := step 2 (step 1 (step 0 w0)),
              best := some (evalLoss 1 (step 1 (step 0 w0))),
              bestWeights := some (step 1 (step 0 w0)), wait := 1,
              stoppedEpoch := none }]) := by
        simp [fitEpoch, onEpochEnd, isImprovement, h2]
      rw [e2]
      exact ⟨_, _, rfl, (by decide : (0:ℕ) ≤ 1), (by decide : (1:ℕ) ≤ 2), rfl, rfl, rfl⟩
  · have e1 : fitEpoch step evalLoss 3
        ({ weights := step 0 w0, best := some (evalLoss 0 (step 0 w0)),
           bestWeights := some (step 0 w0), wait := 0, stoppedEpoch := none },
         [{ weights := step 0 w0, best := some (evalLoss 0 (step 0 w0)),
            bestWeights := some (step 0 w0), wait := 0,
            stoppedEpoch := none }]) 1 =
        ({ weights := step 1 (step 0 w0), best := some (evalLoss 0 (step 0 w0)),
           bestWeights := some (step 0 w0), wait := 1, stoppedEpoch := none },
         [{ weights := step 0 w0, best := some (evalLoss 0 (step 0 w0)),
            bestWeights := some (step 0 w0), wait := 0, stoppedEpoch := none },
          { weights := step 1 (step 0 w0),
            best := some (evalLoss 0 (step 0 w0)),
            bestWeights := some (step 0 w0), wait := 1,
            stoppedEpoch := none }]) := by
      simp [fitEpoch, onEpochEnd, isImprovement, h1]
    rw [e1]
    by_cases h2 : evalLoss 2 (step 2 (step 1 (step 0 w0))) <
        evalLoss 0 (step 0 w0)
    · have e2 : fitEpoch step evalLoss 3
          ({ weights := step 1 (step 0 w0),
             best := some (evalLoss 0 (step 0 w0)),
             bestWeights := some (step 0 w0), wait := 1,
             stoppedEpoch := none },
           [{ weights := step 0 w0, best := some (evalLoss 0 (step 0 w0)),
              bestWeights := some (step 0 w0), wait := 0, stoppedEpoch := none },
            { weights := step 1 (step 0 w0),
              best := some (evalLoss 0 (step 0 w0)),
              bestWeights := some (step 0 w0), wait := 1,
              stoppedEpoch := none }]) 2 =
          ({ weights := step 2 (step 1 (step 0 w0)),
             best := some (evalLoss 2 (step 2 (step 1 (step 0 w0)))),
             bestWeights := some (step 2 (step 1 (step 0 w0))), wait := 0,
             stoppedEpoch := none },
           [{ weights := step 0 w0, best := some (evalLoss 0 (step 0 w0)),
              bestWeights := some (step 0 w0), wait := 0, stoppedEpoch := none },
            { weights := step 1 (step 0 w0),
              best := some (evalLoss 0 (step 0 w0)),
              bestWeights := some (step 0 w0), wait := 1,
              stoppedEpoch := none },
            { weights := step 2 (step 1 (step 0 w0)),
              best := some (evalLoss 2 (step 2 (step 1 (step 0 w0)))),
              bestWeights := some (step 2 (step 1 (step 0 w0))), wait := 0,
              stoppedEpoch := none }]) := by
        simp [fitEpoch, onEpochEnd, isImprovement, h2]
      rw [e2]
      exact ⟨_, _, rfl, (by decide : (1:ℕ) ≤ 1), (by decide : (0:ℕ) ≤ 2), rfl, rfl, rfl⟩
    · have e2 : fitEpoch step evalLoss 3
          ({ weights := step 1 (step 0 w0),
             best := some (evalLoss 0 (step 0 w0)),
             bestWeights := some (step 0 w0), wait := 1,
             stoppedEpoch := none },
           [{ weights := step 0 w0, best := some (evalLoss 0 (step 0 w0)),
              bestWeights := some (step 0 w0), wait := 0, stoppedEpoch := none },
            { weights := step 1 (step 0 w0),
              best := some (evalLoss 0 (step 0 w0)),
              bestWeights := some (step 0 w0), wait := 1,
              stoppedEpoch := none }]) 2 =
          ({ weights := step 2 (step 1 (step 0 w0)),
             best := some (evalLoss 0 (step 0 w0)),
             bestWeights := some (step 0 w0), wait := 2, stoppedEpoch := none },
           [{ weights := step 0 w0, best := some (evalLoss 0 (step 0 w0)),
              bestWeights := some (step 0 w0), wait := 0, stoppedEpoch := none },
            { weights := step 1 (step 0 w0),
              best := some (evalLoss 0 (step 0 w0)),
              bestWeights := some (step 0 w0), wait := 1,
              stoppedEpoch := none },
            { weights := step 2 (step 1 (step 0 w0)),
              best := some (evalLoss 0 (step 0 w0)),
              bestWeights := some (step 0 w0), wait := 2,
              stoppedEpoch := none }]) := by
        simp [fitEpoch, onEpochEnd, isImprovement, h2]
      rw [e2]
      exact ⟨_, _, rfl, (by decide : (1:ℕ) ≤ 1), (by decide : (2:ℕ) ≤ 2), rfl, rfl, rfl⟩

/-- C1: the notebook's training run (`epochs=3`, `EarlyStopping(patience=3,
restore_best_weights=True)`) never executes more than 3 epochs; the stall
counter never exceeds the patience threshold 3 at any observed epoch end;
and whenever the early-stopping callback does stop a `fit` run — for any
patience and epoch budget — the final model weights are exactly the
snapshot taken at the epoch with the best validation loss. -/
theorem claim_C1_early_stopping {V : Type} (step : ℕ → V → V)
    (evalLoss : ℕ → V → ℚ) (w0 : V) :
    (model_fit step evalLoss w0).2.length ≤ 3 ∧
    (∀ s ∈ (model_fit step evalLoss w0).2, s.wait ≤ 3) ∧
    (∀ (patience epochs : ℕ) (w1 : V),
      (fit step evalLoss patience epochs w1).1.stoppedEpoch.isSome = true →
      (fit step evalLoss patience epochs w1).1.bestWeights =
        some (fit step evalLoss patience epochs w1).1.weights) := by
  obtain ⟨s2, s3, hrun, hw2, hw3, hst2, hst3, hwt⟩ :=
    model_fit_run step evalLoss w0
  refine ⟨?_, ?_, fun p e w1 => fit_restore step evalLoss p e w1⟩
  · rw [hrun]
    exact (by decide : (3 : ℕ) ≤ 3)
  · rw [hrun]
    intro s hs
    simp only [List.mem_cons, List.not_mem_nil, or_false] at hs
    rcases hs with rfl | rfl | rfl
    · exact (by decide : (0 : ℕ) ≤ 3)
    · exact le_trans hw2 (by decide)
    · exact le_trans hw3 (by decide)

/-- C9: with the configured budget of 3 epochs and patience 3, the patience
condition can never fire — epoch 0 always improves on the infinite initial
best, so the stall counter never exceeds 2 — hence every run terminates by
exhausting the epoch budget (exactly 3 epochs, never stopped early), the
restore-best-weights branch is never executed, and the final weights are
the ones produced by the last epoch's gradient updates. -/
theorem claim_C9_patience_cannot_fire {V : Type} (step : ℕ → V → V)
    (evalLoss : ℕ → V → ℚ) (w0 : V) :
    (model_fit step evalLoss w0).1.stoppedEpoch = none ∧
    (model_fit step evalLoss w0).2.length = 3 ∧
    (model_fit step evalLoss w0).1.weights = step 2 (step 1 (step 0 w0)) ∧
    ∀ s ∈ (model_fit step evalLoss w0).2, s.wait ≤ 2 := by
  obtain ⟨s2, s3, hrun, hw2, hw3, hst2, hst3, hwt⟩ :=
    model_fit_run step evalLoss w0
  refine ⟨?_, ?_, ?_, ?_⟩
  · rw [hrun]
    exact hst3
  · rw [hrun]
    rfl
  · rw [hrun]
    exact hwt
  · rw [hrun]
    intro s hs
    simp only [List.mem_cons, List.not_mem_nil, or_false] at hs
    rcases hs with rfl | rfl | rfl
    · exact (by decide : (0 : ℕ) ≤ 2)
    · exact le_trans hw2 (by decide)
    · exact hw3

end DoctorResNet
